import Mathlib

/-!
Verification of the EIA MCP server (`src/eia_server.py`) against its
natural-language specification.

The Python source is shallowly embedded: JSON values become the inductive
`JVal`; Python dictionaries are association lists (insertion order, first
match wins, like `dict`); operations that can raise in Python (attribute
access on a non-dict, `len()` of a number, the `","` format spec on a
string, ...) are modelled in the `Except PyErr` monad, so that a Python
exception corresponds to an `Except.error`.  Each definition carries a
comment pointing at the source lines it embeds.
-/

/-- A JSON value, as produced by `response.json()` in the source.
(The upstream bodies relevant to the claims contain no floats, so no
float constructor is needed.) -/
inductive JVal where
  | null
  | bool (b : Bool)
  | int (n : Int)
  | str (s : String)
  | arr (elems : List JVal)
  | obj (fields : List (String × JVal))
deriving Repr

/-- Exceptions the embedded Python fragments can raise. -/
inductive PyErr where
  | attributeError
  | typeError
  | valueError
  | keyError
  | indexError
deriving Repr, DecidableEq

/-- First-match lookup in a Python dict modelled as an association list. -/
def lookupField : List (String × JVal) → String → Option JVal
  | [], _ => none
  | (k, v) :: rest, key => if k == key then some v else lookupField rest key

/-- `key in d` for a dict. -/
def hasField (fs : List (String × JVal)) (k : String) : Bool :=
  (lookupField fs k).isSome

/-- Python truthiness of a JSON value (`bool(x)`). -/
def JVal.truthy : JVal → Bool
  | .null => false
  | .bool b => b
  | .int n => n != 0
  | .str s => s != ""
  | .arr xs => !xs.isEmpty
  | .obj fs => !fs.isEmpty

def JVal.isObj : JVal → Bool
  | .obj _ => true
  | _ => false

def JVal.isArr : JVal → Bool
  | .arr _ => true
  | _ => false

/-- Python `int` view of a value: `bool` is an `int` subclass. -/
def JVal.asPyInt : JVal → Option Int
  | .int n => some n
  | .bool b => some (if b then 1 else 0)
  | _ => none

/-- `x.get(k, default)`: raises `AttributeError` when `x` is not a dict. -/
def pyGet (j : JVal) (k : String) (default : JVal) : Except PyErr JVal :=
  match j with
  | .obj fs => .ok ((lookupField fs k).getD default)
  | _ => .error .attributeError

/-- `x.get(k)` (default `None`). -/
def pyGetOpt (j : JVal) (k : String) : Except PyErr JVal :=
  pyGet j k .null

/-- `x.keys()` as a list: raises `AttributeError` on a non-dict. -/
def pyKeys : JVal → Except PyErr (List String)
  | .obj fs => .ok (fs.map Prod.fst)
  | _ => .error .attributeError

/-- `len(x)`: raises `TypeError` on values without a length. -/
def pyLen : JVal → Except PyErr Int
  | .str s => .ok s.length
  | .arr xs => .ok xs.length
  | .obj fs => .ok fs.length
  | _ => .error .typeError

/-- `x[0]` subscripting, as used on `actual_data[0]`. -/
def pyIndexZero : JVal → Except PyErr JVal
  | .arr (x :: _) => .ok x
  | .arr [] => .error .indexError
  | .str s =>
      match s.data with
      | c :: _ => .ok (.str (String.mk [c]))
      | [] => .error .indexError
  | .obj _ => .error .keyError
  | _ => .error .typeError

-- Python structural equality (`==` / `!=`) on JSON values.
mutual
def jsonEq : JVal → JVal → Bool
  | .null, .null => true
  | .bool a, .bool b => a == b
  | .int a, .int b => a == b
  | .str a, .str b => a == b
  | .arr a, .arr b => jsonEqList a b
  | .obj a, .obj b => jsonEqObj a b
  | _, _ => false

def jsonEqList : List JVal → List JVal → Bool
  | [], [] => true
  | a :: as, b :: bs => jsonEq a b && jsonEqList as bs
  | _, _ => false

def jsonEqObj : List (String × JVal) → List (String × JVal) → Bool
  | [], [] => true
  | (k, v) :: as, (l, w) :: bs => k == l && jsonEq v w && jsonEqObj as bs
  | _, _ => false
end

/-- Substring test on character lists (Python `sub in s` for strings). -/
def listIsSubstr (needle : List Char) : List Char → Bool
  | [] => needle.isEmpty
  | c :: rest => needle.isPrefixOf (c :: rest) || listIsSubstr needle rest

/-- `in` membership: dict keys, list membership, substring for strings;
`TypeError` on non-containers (e.g. `'request' in 5`). -/
def pyContains (j : JVal) (k : String) : Except PyErr Bool :=
  match j with
  | .obj fs => .ok (hasField fs k)
  | .arr xs => .ok (xs.any (fun x => jsonEq x (.str k)))
  | .str s => .ok (listIsSubstr k.data s.data)
  | _ => .error .typeError

-- Python `repr()` of a JSON value (used by `str()` on containers).
mutual
def pyRepr : JVal → String
  | .null => "None"
  | .bool true => "True"
  | .bool false => "False"
  | .int n => toString n
  | .str s => "'" ++ s ++ "'"
  | .arr xs => "[" ++ pyReprList xs ++ "]"
  | .obj fs => "\x7b" ++ pyReprObj fs ++ "\x7d"

def pyReprList : List JVal → String
  | [] => ""
  | [x] => pyRepr x
  | x :: rest => pyRepr x ++ ", " ++ pyReprList rest

def pyReprObj : List (String × JVal) → String
  | [] => ""
  | [(k, v)] => "'" ++ k ++ "': " ++ pyRepr v
  | (k, v) :: rest => "'" ++ k ++ "': " ++ pyRepr v ++ ", " ++ pyReprObj rest
end

/-- Python `str()` as used in f-string interpolation of a JSON value. -/
def pyStr : JVal → String
  | .str s => s
  | j => pyRepr j

-- `json.dumps` of a JSON value (the source only embeds the dump in
-- display text, so the compact rendering stands in for the indented one).
mutual
def jsonDumps : JVal → String
  | .null => "null"
  | .bool true => "true"
  | .bool false => "false"
  | .int n => toString n
  | .str s => "\"" ++ s ++ "\""
  | .arr xs => "[" ++ jsonDumpsList xs ++ "]"
  | .obj fs => "\x7b" ++ jsonDumpsObj fs ++ "\x7d"

def jsonDumpsList : List JVal → String
  | [] => ""
  | [x] => jsonDumps x
  | x :: rest => jsonDumps x ++ ", " ++ jsonDumpsList rest

def jsonDumpsObj : List (String × JVal) → String
  | [] => ""
  | [(k, v)] => "\"" ++ k ++ "\": " ++ jsonDumps v
  | (k, v) :: rest => "\"" ++ k ++ "\": " ++ jsonDumps v ++ ", " ++ jsonDumpsObj rest
end

/-- `type(x)` rendered the way an f-string prints it. -/
def pyTypeName : JVal → String
  | .null => "<class 'NoneType'>"
  | .bool _ => "<class 'bool'>"
  | .int _ => "<class 'int'>"
  | .str _ => "<class 'str'>"
  | .arr _ => "<class 'list'>"
  | .obj _ => "<class 'dict'>"

/-- `s[:n]` string slicing. -/
def pyTake (s : String) (n : Nat) : String :=
  String.mk (s.data.take n)

/-- `s.lstrip(chars)`: drop leading characters belonging to `chars`. -/
def pyLstrip (s : String) (chars : String) : String :=
  String.mk (s.data.dropWhile (fun c => chars.data.contains c))

/-- `s.rstrip(chars)`: drop trailing characters belonging to `chars`
(a character *set*, not a suffix — the root cause behind claim C5). -/
def pyRstrip (s : String) (chars : String) : String :=
  String.mk ((s.data.reverse.dropWhile (fun c => chars.data.contains c)).reverse)

/-- `s.strip(chars)`. -/
def pyStrip (s : String) (chars : String) : String :=
  pyRstrip (pyLstrip s chars) chars

/-- `s.strip()` (whitespace). -/
def pyStripWS (s : String) : String :=
  pyStrip s " \t\n\r\x0b\x0c"

/-- `s.endswith(suffix)`. -/
def pyEndsWith (s suffix : String) : Bool :=
  suffix.data.isSuffixOf s.data

/-- Comma grouping of a reversed digit list (3 digits per group). -/
def commaRev (ds : List Char) : List Char :=
  if _h : ds.length ≤ 3 then ds
  else ds.take 3 ++ ',' :: commaRev (ds.drop 3)
termination_by ds.length
decreasing_by simp [List.length_drop]; omega

/-- Python `f"\x7bn:,\x7d"` rendering of an integer with thousands separators. -/
def intComma (n : Int) : String :=
  (if n < 0 then "-" else "") ++
    String.mk ((commaRev (Nat.toDigits 10 n.natAbs).reverse).reverse)

/-- Applying the `","` format spec to a JSON value: succeeds on ints
(and bools, which are int subclasses), raises `ValueError` on strings
(`Cannot specify ',' with 's'`) and `TypeError` on other types. -/
def formatComma (j : JVal) : Except PyErr String :=
  match j.asPyInt with
  | some m => .ok (intComma m)
  | none =>
      match j with
      | .str _ => .error .valueError
      | _ => .error .typeError

/-- A Python `for` loop over `xs` whose body can raise. -/
def exMapM {α β : Type} (f : α → Except PyErr β) : List α → Except PyErr (List β)
  | [] => .ok []
  | x :: xs => do
      let y ← f x
      let ys ← exMapM f xs
      pure (y :: ys)

/-- Boolean success test for the `Except` monad. -/
def isOkE {α : Type} : Except PyErr α → Bool
  | .ok _ => true
  | .error _ => false

/-- A facet filter value: `Union[str, List[str]]` in the tool signature. -/
inductive FacetV where
  | str (s : String)
  | list (xs : List String)
deriving Repr, DecidableEq

/-- A query-parameter value as handed to `httpx`. -/
inductive PVal where
  | str (s : String)
  | strList (xs : List String)
  | int (n : Int)
deriving Repr, DecidableEq

/-- `build_facets_params` (src/eia_server.py lines 41-61): both the list
branch and the scalar branch emit the key `facets[<key>]` and pass the
value through unchanged. -/
def build_facets_params (facets : List (String × FacetV)) : List (String × PVal) :=
  facets.map fun kv =>
    match kv.2 with
    | .list xs => ("facets[" ++ kv.1 ++ "]", PVal.strList xs)
    | .str v => ("facets[" ++ kv.1 ++ "]", PVal.str v)

/-- Embedding of a facet value into a parameter value (identity on shape). -/
def pvalOfFacet : FacetV → PVal
  | .str s => PVal.str s
  | .list xs => PVal.strList xs

/-- The validation at src/eia_server.py lines 242-246: the path must
already end in `/data` or `/data/`. -/
def routeDataValidate (p : String) : Bool :=
  pyEndsWith p "/data" || pyEndsWith p "/data/"

/-- The normalization at src/eia_server.py line 249:
`route_path_with_data_segment.rstrip('/').rstrip('/data') + '/data'`. -/
def normalizeDataPath (p : String) : String :=
  pyRstrip (pyRstrip p "/") "/data" ++ "/data"

/-- The validate-then-normalize step of `get_eia_v2_route_data_enhanced`
(lines 241-249): `.error` is the rejecting `CallToolResult(is_error=True)`,
`.ok` carries the `clean_path` handed to `make_eia_api_request`. -/
def routeDataPathStep (p : String) : Except String String :=
  if !(pyEndsWith p "/data") && !(pyEndsWith p "/data/") then
    .error ("❌ O parâmetro 'route_path_with_data_segment' DEVE terminar em '/data' ou '/data/'. Caminho fornecido: " ++ p)
  else
    .ok (normalizeDataPath p)

/-- The constant `wti_data_path` of `find_wti_oil_data`
(src/eia_server.py line 703). -/
def wtiDataPath : String := "petroleum/pri/spt/data"

/-- Outcome of the single `httpx` GET inside `make_eia_api_request`,
covering every exception class the `try` block can produce:
2xx with a JSON parse result (a parse failure is `json.JSONDecodeError`,
caught by the broad `except Exception`), `httpx.HTTPStatusError` raised by
`raise_for_status` (with the error body's own parse result),
`httpx.RequestError`, and any other exception. -/
inductive HttpOutcome where
  | success (parse : Except String JVal)
  | statusError (code : Nat) (text : String) (parse : Except String JVal)
  | requestError (msg : String)
  | otherException (msg : String)

/-- The dict returned when no API key is configured
(src/eia_server.py line 82). -/
def missingKeyResult : JVal :=
  .obj [("error", .str "API_KEY_MISSING"),
        ("message", .str "Chave da API EIA não configurada")]

/-- The `except httpx.HTTPStatusError` handler (lines 125-144).  The inner
`try` parses the error body and calls `.get('message', ...)` on it; a parse
failure or a non-dict body (whose `.get` raises `AttributeError`) falls to
the inner `except Exception` fallback with the text truncated to 500. -/
def handleStatusError (code : Nat) (text : String) (parse : Except String JVal) : JVal :=
  match parse with
  | .ok (.obj fs) =>
      .obj [("error", .str ("HTTPStatusError: " ++ toString code)),
            ("message", (lookupField fs "message").getD (.str text)),
            ("details", .obj fs)]
  | _ =>
      .obj [("error", .str ("HTTPStatusError: " ++ toString code)),
            ("message", .str (pyTake text 500))]

/-- `make_eia_api_request` (src/eia_server.py lines 72-152), as a function
of the configured key and the network outcome.  Every branch returns a
JSON value; nothing escapes as an exception. -/
def make_eia_api_request (apiKey : Option String) (o : HttpOutcome) : JVal :=
  match apiKey with
  | none => missingKeyResult
  | some _ =>
      match o with
      | .success (.ok body) => body
      | .success (.error msg) =>
          .obj [("error", .str "UnexpectedError"), ("message", .str msg)]
      | .statusError code text parse => handleStatusError code text parse
      | .requestError msg =>
          .obj [("error", .str "RequestError"), ("message", .str msg)]
      | .otherException msg =>
          .obj [("error", .str "UnexpectedError"), ("message", .str msg)]

/-- An outcome on which the `try` body of the transport raises. -/
def isFailureOutcome : HttpOutcome → Bool
  | .success (.ok _) => false
  | _ => true

/-- Whether a transport result is an error-tagged dict. -/
def hasErrorKey : JVal → Bool
  | .obj fs => hasField fs "error"
  | _ => false

/-- A `CallToolResult` with one text content block; `is_error` defaults to
`false` when the source omits it. -/
structure ToolResult where
  isErrorFlag : Bool
  text : String
deriving Repr, DecidableEq

/-- The header block of the tabular formatter
(src/eia_server.py lines 340-352).  `total_records` is
`response_content.get('total', len(actual_data))` — note the default
argument is evaluated eagerly, and note there is no `int()` coercion:
formatting `total_records` with the `","` spec raises when the value is
not an int (`ValueError` for a string). -/
def tabularHeader (cleanPath : String) (offset lengthArg : Int)
    (respContent actualData : JVal) : Except PyErr (List String) := do
  let lenA ← pyLen actualData
  let totV ← pyGet respContent "total" (.int lenA)
  let returned : Int := match actualData with | .arr xs => xs.length | _ => 1
  match totV.asPyInt with
  | none =>
      match totV with
      | .str _ => .error .valueError
      | _ => .error .typeError
  | some total => do
      let head := ["✅ Dados recuperados com sucesso da rota: " ++ cleanPath,
                   "📊 Total de registros disponíveis: " ++ intComma total,
                   "📥 Registros retornados nesta página: " ++ intComma returned,
                   "📄 Offset: " ++ intComma offset ++ " | Limite: " ++ intComma lengthArg]
      if returned < total then
        return head ++ ["➡️ Registros restantes: " ++ intComma (total - (offset + returned))]
      else
        return head

/-- The markdown table block (src/eia_server.py lines 357-374):
columns come from the first row's keys, each cell is
`str(row.get(col, 'N/A'))`, display capped at 100 rows. -/
def tableLines (actualData : JVal) : Except PyErr (List String) :=
  match actualData with
  | .arr (first :: rest) => do
      let xs := first :: rest
      let cols ← pyKeys first
      let headerLine := "| " ++ String.intercalate " | " cols ++ " |"
      let sepLine := "|" ++ String.join (cols.map (fun _ => "---|"))
      let displayLimit := min 100 xs.length
      let rowLines ← exMapM (fun row => do
          let vals ← exMapM (fun c => do
              let v ← pyGet row c (.str "N/A")
              pure (pyStr v)) cols
          pure ("| " ++ String.intercalate " | " vals ++ " |")) (xs.take displayLimit)
      let extra :=
        if xs.length > displayLimit then
          ["... (mostrando primeiras " ++ toString displayLimit ++ " linhas de " ++ toString xs.length ++ ")"]
        else []
      return headerLine :: sepLine :: rowLines ++ extra
  | _ => .ok []

/-- `get_eia_v2_route_data_enhanced` after the transport call
(src/eia_server.py lines 283-378), as a function of the `clean_path`,
pagination arguments, `debug_mode` and the transport's returned JSON. -/
def routeDataPost (cleanPath : String) (offset lengthArg : Int) (debugMode : Bool)
    (resp : JVal) : Except PyErr ToolResult := do
  if !resp.truthy then
    return ⟨true, "❌ Falha na requisição para a rota " ++ cleanPath⟩
  let errV ← pyGet resp "error" .null
  if errV.truthy then
    let msgV ← pyGet resp "message" (.str "N/A")
    let detV ← pyGet resp "details" .null
    let baseLines := ["❌ Erro ao recuperar dados para a rota " ++ cleanPath,
                      "🔍 Erro: " ++ pyStr errV,
                      "💬 Mensagem: " ++ pyStr msgV]
    let allLines :=
      if detV.truthy then baseLines ++ ["📋 Detalhes: " ++ jsonDumps detV] else baseLines
    return ⟨true, String.intercalate "\n" allLines⟩
  let respContent ← pyGet resp "response" resp
  let actualData ← pyGetOpt respContent "data"
  if !actualData.truthy then
    let w1 ← pyGetOpt respContent "warnings"
    let w2 ← pyGetOpt respContent "warning"
    let warning := if w1.truthy then w1 else w2
    let totV ← pyGet respContent "total" (.int 0)
    let ls := ["⚠️ Nenhum dado encontrado para a rota " ++ cleanPath,
               "📊 Total de registros: " ++ pyStr totV]
    let ls := if warning.truthy then ls ++ ["⚠️ Aviso da API: " ++ pyStr warning] else ls
    let ls := if debugMode then ls ++ ["🔍 Resposta completa: " ++ pyTake (jsonDumps resp) 1000 ++ "..."] else ls
    return ⟨false, String.intercalate "\n" ls⟩
  match actualData with
  | .arr [] =>
      return ⟨false, "📊 Consulta executada com sucesso, mas retornou 0 registros para a rota " ++ cleanPath⟩
  | _ => do
      let header ← tabularHeader cleanPath offset lengthArg respContent actualData
      let table ← tableLines actualData
      return ⟨false, String.intercalate "\n" (header ++ [""] ++ table)⟩

/-- `get_eia_v2_series_id_data` after the transport call
(src/eia_server.py lines 787-837). -/
def seriesIdPost (seriesId : String) (resp : JVal) : Except PyErr ToolResult := do
  let failed ←
    if !resp.truthy then pure true
    else do
      let e ← pyGet resp "error" .null
      pure e.truthy
  if failed then
    let base := "Falha ao recuperar dados para o Series ID " ++ seriesId ++ "."
    if resp.truthy then
      let msgV ← pyGet resp "message" .null
      if msgV.truthy then
        return ⟨true, base ++ " Detalhe: " ++ pyStr msgV⟩
      else
        let respW ← pyGet resp "response" (.obj [])
        let errW ← pyGet respW "error" .null
        if errW.truthy then
          return ⟨true, base ++ " Erro da API EIA: " ++ pyStr errW⟩
        else
          return ⟨true, base⟩
    else
      return ⟨true, base⟩
  let respContent ← pyGet resp "response" (.obj [])
  let actualData ← pyGetOpt respContent "data"
  if !actualData.truthy && actualData.isArr then
    return ⟨false, "Nenhum dado encontrado para o Series ID " ++ seriesId ++ ". A API retornou uma lista vazia."⟩
  if !actualData.truthy then
    let wInner ← pyGetOpt respContent "warning"
    let warning ← pyGet respContent "warnings" wInner
    let errApi ← pyGet respContent "error" (.str "Resposta inesperada da API.")
    let msg := "Não foi possível recuperar dados para o Series ID " ++ seriesId ++ ". " ++
      (if warning.truthy then "Aviso da API: " ++ pyStr warning ++ ". " else "") ++
      "Detalhe: " ++ pyStr errApi ++ ". Resposta completa: " ++ pyStr resp
    return ⟨true, msg⟩
  let lenA ← pyLen actualData
  let totV ← pyGet respContent "total" (.int lenA)
  let firstLine := "Total de registros correspondentes (pode ser paginado): " ++ pyStr totV
  let first ← pyIndexZero actualData
  let cols ← pyKeys first
  let headerLine := "| " ++ String.intercalate " | " cols ++ " |"
  let sepLine := "|" ++ String.intercalate "---|" (cols.map (fun _ => "---")) ++ "|"
  let rows := match actualData with | .arr xs => xs | _ => []
  let rowLines ← exMapM (fun row => do
      let vals ← exMapM (fun c => do
          let v ← pyGet row c (.str "N/A")
          pure (pyStr v)) cols
      pure ("| " ++ String.intercalate " | " vals ++ " |")) rows
  let out := firstLine :: headerLine :: sepLine :: rowLines
  if out.length ≤ 1 then
    return ⟨false, "Nenhum dado tabular encontrado para Series ID " ++ seriesId ++ ". Resposta da API: " ++ pyStr resp⟩
  return ⟨false, String.intercalate "\n" out⟩

/-- The five response shapes of the spec's `ClassifiedResponse`. -/
inductive RVariant where
  | facetValues
  | routeListing
  | routeMetadata
  | tabularData
  | unrecognized
deriving Repr, DecidableEq

/-- Case-1 test, identical in both listing tools (lines 874 and 419):
`'totalFacets' in response_obj and isinstance(response_obj.get('facets'), list)`. -/
def facetCond (fs : List (String × JVal)) : Bool :=
  hasField fs "totalFacets" && ((lookupField fs "facets").getD .null).isArr

/-- Case-2 test (lines 888 and 441):
`isinstance(response_obj.get('routes'), list) and response_obj.get('routes')`. -/
def routesCond (fs : List (String × JVal)) : Bool :=
  ((lookupField fs "routes").getD .null).isArr && ((lookupField fs "routes").getD .null).truthy

/-- Case-3 test (lines 906 and 475):
`response_obj.get('id') or response_obj.get('name')`. -/
def metaCond (fs : List (String × JVal)) : Bool :=
  ((lookupField fs "id").getD .null).truthy || ((lookupField fs "name").getD .null).truthy

/-- The `if/elif/elif/else` priority chain shared verbatim by
`list_eia_v2_routes` (lines 874-964) and `list_eia_v2_routes_enhanced`
(lines 419-570). -/
def classifyListing (fs : List (String × JVal)) : RVariant :=
  if facetCond fs then .facetValues
  else if routesCond fs then .routeListing
  else if metaCond fs then .routeMetadata
  else .unrecognized

/-- `response_obj.get(k, [])` viewed as a list of elements (empty when the
field is absent or not a list — every use site is guarded by an
`isinstance(..., list)`-and-truthiness test with the same effect). -/
def listAt (fs : List (String × JVal)) (k : String) : List JVal :=
  match lookupField fs k with
  | some (.arr xs) => xs
  | _ => []

/-- Loop body of lines 882-885: one facet value line. -/
def facetValueLine (fv : JVal) : Except PyErr String := do
  let nameV ← pyGet fv "name" (.str "N/A")
  let aliasV ← pyGetOpt fv "alias"
  let aliasStr := if aliasV.truthy then ", Alias: " ++ pyStr aliasV else ""
  let idV ← pyGet fv "id" (.str "N/A")
  pure ("  - ID (valor do facet): " ++ pyStr idV ++ ", Nome: " ++ pyStr nameV ++ aliasStr)

/-- Case 1 of `list_eia_v2_routes` (lines 876-885): facet values. -/
def casoFacetValues (pathToList : String) (fs : List (String × JVal)) :
    Except PyErr (List String) := do
  let l1 := "Valores disponíveis para o facet em '" ++ pathToList ++ "':"
  let l2 := "  Total de Valores: " ++ pyStr ((lookupField fs "totalFacets").getD .null)
  let xs := listAt fs "facets"
  let emptyNote := if xs.isEmpty then ["  Nenhum valor de facet retornado."] else []
  let valueLines ← exMapM facetValueLine xs
  return l1 :: l2 :: emptyNote ++ valueLines

/-- Loop body of lines 899-903: one sub-route entry (one or two lines). -/
def subRouteLines (r : JVal) : Except PyErr (List String) := do
  let nameV ← pyGet r "name" (.str "N/A")
  let descR ← pyGetOpt r "description"
  let idV ← pyGet r "id" (.str "N/A")
  let main := "  - ID da Sub-rota: " ++ pyStr idV ++ ", Nome: " ++ pyStr nameV
  pure (if descR.truthy then [main, "    Descrição: " ++ pyStr descR] else [main])

/-- Case 2 of `list_eia_v2_routes` (lines 888-903): sub-route listing. -/
def casoRouteListing (segmentPath : Option String) (pathToList : String)
    (fs : List (String × JVal)) : Except PyErr (List String) := do
  let routes := listAt fs "routes"
  let parentId := (lookupField fs "id").getD
    (.str (if pathToList != "" then pathToList else "Nível Raiz"))
  let parentName := (lookupField fs "name").getD (.str "")
  let noSeg := match segmentPath with
    | none => true
    | some s => s == "" || pyStripWS s == ""
  let headerText :=
    if noSeg then "Rotas de Nível Superior Disponíveis (sob '" ++ pyStr parentId ++ "')"
    else "Sub-Rotas para '" ++ pyStr parentId ++ "' (" ++ pyStr parentName ++ ")"
  let descV := (lookupField fs "description").getD .null
  let descLines := if descV.truthy then ["  Descrição do Pai: " ++ pyStr descV] else []
  let routeLines ← exMapM subRouteLines routes
  return headerText :: descLines ++ routeLines.flatten

/-- Loop body of lines 916-923: one facet descriptor (two lines). -/
def metaFacetLines (pathToList : String) (fm : JVal) : Except PyErr (List String) := do
  let fid ← pyGet fm "id" (.str "N/A")
  let basePath := pyRstrip pathToList "/"
  let explorePath :=
    if basePath != "" then basePath ++ "/facet/" ++ pyStr fid
    else "facet/" ++ pyStr fid
  let fname ← pyGet fm "name" (.str "N/A")
  let fdesc ← pyGet fm "description" (.str "N/A")
  pure ["    - ID do Facet: " ++ pyStr fid ++ ", Nome: " ++ pyStr fname ++ ", Descrição: " ++ pyStr fdesc,
        "      (Para listar valores, use: list_eia_v2_routes com segment_path='" ++ explorePath ++ "')"]

/-- Loop body of lines 948-953: one frequency descriptor line. -/
def freqLine (fr : JVal) : Except PyErr String := do
  let idV ← pyGet fr "id" (.str "N/A")
  let queryV ← pyGet fr "query" idV
  let fdesc ← pyGet fr "description" (.str "N/A")
  let ffmt ← pyGet fr "format" (.str "N/A")
  pure ("    - ID (para query): " ++ pyStr queryV ++ ", Nome: " ++ pyStr idV ++
    ", Descrição: " ++ pyStr fdesc ++ ", Formato do Período: " ++ pyStr ffmt)

/-- Case 3 of `list_eia_v2_routes` (lines 906-961): route metadata. -/
def casoRouteMetadata (pathToList : String) (fs : List (String × JVal)) :
    Except PyErr (List String) := do
  let routeId := (lookupField fs "id").getD (.str pathToList)
  let l1 := "Metadados da Rota '" ++ pyStr routeId ++ "':"
  let nameV := (lookupField fs "name").getD .null
  let nameLines := if nameV.truthy then ["  Nome: " ++ pyStr nameV] else []
  let descV := (lookupField fs "description").getD .null
  let descLines := if descV.truthy then ["  Descrição: " ++ pyStr descV] else []
  let facetSec ← (match listAt fs "facets" with
    | [] => pure ([] : List String)
    | x :: xt => do
        let lls ← exMapM (metaFacetLines pathToList) (x :: xt)
        pure ("\n  Facets Disponíveis (filtros de dimensão):" :: lls.flatten))
  let dataSec := match (lookupField fs "data").getD (.obj []) with
    | .obj (g :: gt) =>
        "\n  Colunas de Dados Disponíveis (para parâmetro 'data_elements' em get_eia_v2_route_data):" ::
        (g :: gt).map (fun kv =>
          match kv.2 with
          | .obj ds =>
              "    - ID da Coluna: " ++ kv.1 ++ ", Nome/Alias: " ++
                pyStr ((lookupField ds "name").getD ((lookupField ds "alias").getD (.str "N/A"))) ++
                ", Unidades: " ++ pyStr ((lookupField ds "units").getD (.str "N/A"))
          | v => "    - ID da Coluna: " ++ kv.1 ++ " (detalhes em formato inesperado: " ++ pyStr v ++ ")")
    | .arr items =>
        "\n  Colunas de Dados Disponíveis (para parâmetro 'data_elements' em get_eia_v2_route_data):" ::
        items.map (fun it =>
          match it with
          | .obj ds =>
              if hasField ds "id" then
                "    - ID da Coluna: " ++ pyStr ((lookupField ds "id").getD .null) ++
                  ", Nome: " ++ pyStr ((lookupField ds "name").getD (.str "N/A")) ++
                  ", Unidades: " ++ pyStr ((lookupField ds "units").getD (.str "N/A"))
              else "    - Coluna: " ++ pyStr it
          | _ => "    - Coluna: " ++ pyStr it)
    | _ => []
  let freqSec ← (match listAt fs "frequency" with
    | [] => pure ([] : List String)
    | x :: xt => do
        let lines ← exMapM freqLine (x :: xt)
        pure ("\n  Frequências Disponíveis (para parâmetro 'frequency'):" :: lines))
  let sp := (lookupField fs "startPeriod").getD .null
  let ep := (lookupField fs "endPeriod").getD .null
  let periodSec :=
    if sp.truthy || ep.truthy then
      ["\n  Período de Dados Disponível (aproximado):"] ++
        (if sp.truthy then ["    Início: " ++ pyStr sp] else []) ++
        (if ep.truthy then ["    Fim: " ++ pyStr ep] else [])
    else []
  let ddf := (lookupField fs "defaultDateFormat").getD .null
  let dfq := (lookupField fs "defaultFrequency").getD .null
  let tailSec :=
    (if ddf.truthy then ["  Formato de Data Padrão: " ++ pyStr ddf] else []) ++
    (if dfq.truthy then ["  Frequência Padrão: " ++ pyStr dfq] else [])
  return l1 :: nameLines ++ descLines ++ facetSec ++ dataSec ++ freqSec ++ periodSec ++ tailSec

/-- Case 4 of `list_eia_v2_routes` (lines 964-983): unrecognized format,
returned with `is_error=True`.  No operation here can raise. -/
def casoUnrecognized (pathToList : String) (raw : JVal)
    (fs : List (String × JVal)) : ToolResult :=
  let base := "Resposta da API da EIA para '" ++ pathToList ++ "' não corresponde a um formato esperado de metadados, sub-rotas ou valores de facet. "
  let e0 := (lookupField fs "error").getD .null
  let e1 :=
    if !e0.truthy then
      match raw with
      | .obj rs =>
          let r1 := (lookupField rs "error").getD .null
          if !r1.truthy then
            match lookupField rs "response" with
            | some (.obj ws) => (lookupField ws "error").getD .null
            | _ => r1
          else r1
      | _ => e0
    else e0
  let withErr := base ++ (if e1.truthy then "Erro explícito da API EIA: " ++ pyStr e1 ++ ". " else "")
  let full := withErr ++ "Resposta completa recebida: " ++ pyStr raw
  let full2 := match raw with
    | .obj rs =>
        if hasField rs "request" then
          full ++ " Comando ecoado pela API: " ++ pyStr ((lookupField rs "request").getD .null)
        else full
    | _ => full
  ⟨true, full2⟩

/-- Line 985-989 of `list_eia_v2_routes`: empty-lines fallback, then the
non-error joined result. -/
def finishListing (pathToList : String) (raw : JVal) (ls : List String) : ToolResult :=
  let ls :=
    if ls.isEmpty then
      ["Nenhuma informação formatável encontrada para '" ++ pathToList ++ "', mas a API respondeu. Resposta completa: " ++ pyStr raw]
    else ls
  ⟨false, String.intercalate "\n" ls⟩

/-- The classification dispatch of `list_eia_v2_routes` over a dict
`response_obj` (lines 874-989). -/
def routesDispatch (segmentPath : Option String) (pathToList : String) (raw : JVal)
    (fs : List (String × JVal)) : Except PyErr ToolResult :=
  match classifyListing fs with
  | .facetValues => (casoFacetValues pathToList fs).map (finishListing pathToList raw)
  | .routeListing => (casoRouteListing segmentPath pathToList fs).map (finishListing pathToList raw)
  | .routeMetadata => (casoRouteMetadata pathToList fs).map (finishListing pathToList raw)
  | _ => .ok (casoUnrecognized pathToList raw fs)

/-- Line 848 / 389: `segment_path.strip('/') if segment_path and
segment_path.strip() else ""`. -/
def pathToListOf (segmentPath : Option String) : String :=
  match segmentPath with
  | none => ""
  | some s => if s != "" && pyStripWS s != "" then pyStrip s "/" else ""

/-- `list_eia_v2_routes` (src/eia_server.py lines 840-990) after the
transport call, as a function of `segment_path` and the returned JSON. -/
def list_eia_v2_routes (segmentPath : Option String) (raw : JVal) :
    Except PyErr ToolResult := do
  let pathToList := pathToListOf segmentPath
  if !raw.truthy then
    return ⟨true, "Falha ao fazer requisição à API da EIA para o caminho: '" ++ pathToList ++ "'. Verifique os logs do servidor MCP."⟩
  let hasReq ← pyContains raw "request"
  let hasResp ← if hasReq then pyContains raw "response" else pure false
  let responseObj ← if hasReq && hasResp then pyGetOpt raw "response" else pure raw
  match responseObj with
  | .obj fs => routesDispatch segmentPath pathToList raw fs
  | _ =>
      return ⟨true, "Resposta da API para '" ++ pathToList ++ "' não é um objeto JSON válido ou está vazia. Resposta: " ++ pyStr raw⟩

/-- Loop body of lines 427-435: one facet value line (capped display). -/
def enhFacetValueLine (fv : JVal) : Except PyErr String := do
  let nameV ← pyGet fv "name" (.str "N/A")
  let aliasV ← pyGet fv "alias" (.str "")
  let idV ← pyGet fv "id" (.str "N/A")
  let baseLine := "  🔹 " ++ pyStr idV ++ ": " ++ pyStr nameV
  pure (if aliasV.truthy && !jsonEq aliasV nameV then
          baseLine ++ " (" ++ pyStr aliasV ++ ")"
        else baseLine)

/-- Case 1 of `list_eia_v2_routes_enhanced` (lines 419-438): facet values,
display capped at 20. -/
def casoFacetValuesEnh (pathToList : String) (fs : List (String × JVal)) :
    Except PyErr (List String) := do
  let headLines := ["🏷️ Valores disponíveis para o facet: " ++ pathToList,
                    "📊 Total de valores: " ++ pyStr ((lookupField fs "totalFacets").getD .null),
                    ""]
  let xs := listAt fs "facets"
  let shownLines ← exMapM enhFacetValueLine (xs.take 20)
  let moreLines :=
    if xs.length > 20 then ["  ... e mais " ++ toString (xs.length - 20) ++ " valores"]
    else []
  return headLines ++ shownLines ++ moreLines

/-- Loop body of lines 457-464: one sub-route entry (one or two lines). -/
def enhSubRouteLines (r : JVal) : Except PyErr (List String) := do
  let idV ← pyGet r "id" (.str "N/A")
  let nameV ← pyGet r "name" (.str "N/A")
  let descR ← pyGet r "description" (.str "")
  pure (["  📂 " ++ pyStr idV ++ ": " ++ pyStr nameV] ++
    (if descR.truthy then ["     💡 " ++ pyStr descR] else []))

/-- Case 2 of `list_eia_v2_routes_enhanced` (lines 441-472): sub-routes,
with optional usage examples. -/
def casoRouteListingEnh (pathToList : String) (showExamples : Bool)
    (fs : List (String × JVal)) : Except PyErr (List String) := do
  let routes := listAt fs "routes"
  let parentInfo := (lookupField fs "name").getD
    ((lookupField fs "id").getD (.str "Nível Superior"))
  let headLines := ["📁 Rotas disponíveis em: " ++ pyStr parentInfo,
                    "📊 Total de sub-rotas: " ++ toString routes.length,
                    ""]
  let descV := (lookupField fs "description").getD .null
  let descLines := if descV.truthy then ["📝 Descrição: " ++ pyStr descV, ""] else []
  let routeLines ← exMapM enhSubRouteLines routes
  let exLines ← (match routes with
    | [] => pure ([] : List String)
    | first :: _ =>
        if showExamples then do
          let fid ← pyGet first "id" (.str "primeira-rota")
          let fid2 ← pyGet first "id" (.str "")
          let seg :=
            if pathToList != "" then pathToList ++ "/" ++ pyStr fid2 else pyStr fid2
          pure ["", "💡 Exemplos de uso:",
                "   Para explorar '" ++ pyStr fid ++ "':",
                "   list_eia_v2_routes_enhanced(segment_path='" ++ seg ++ "')"]
        else pure ([] : List String))
  return headLines ++ descLines ++ routeLines.flatten ++ exLines

/-- Loop body of lines 499-511: one facet descriptor block. -/
def enhMetaFacetLines (pathToList : String) (fm : JVal) : Except PyErr (List String) := do
  let fid ← pyGet fm "id" (.str "N/A")
  let fname ← pyGet fm "name" (.str "N/A")
  let fdesc ← pyGet fm "description" (.str "")
  let fpath :=
    if pathToList != "" then pathToList ++ "/facet/" ++ pyStr fid
    else "facet/" ++ pyStr fid
  pure (["  🔹 " ++ pyStr fid ++ ": " ++ pyStr fname] ++
    (if fdesc.truthy then ["     💡 " ++ pyStr fdesc] else []) ++
    ["     🔍 Ver valores: list_eia_v2_routes_enhanced(segment_path='" ++ fpath ++ "')",
     ""])

/-- Loop body of lines 538-544: one frequency descriptor line. -/
def enhFreqLine (fr : JVal) : Except PyErr String := do
  let idV ← pyGet fr "id" (.str "N/A")
  let queryV ← pyGet fr "query" idV
  let fdesc ← pyGet fr "description" (.str "N/A")
  let ffmt ← pyGet fr "format" (.str "N/A")
  pure ("  🕐 " ++ pyStr queryV ++ ": " ++ pyStr fdesc ++ " (Formato: " ++ pyStr ffmt ++ ")")

/-- Case 3 of `list_eia_v2_routes_enhanced` (lines 475-568): route
metadata with facets, data columns, frequencies, period and an example. -/
def casoRouteMetadataEnh (pathToList : String) (showExamples : Bool)
    (fs : List (String × JVal)) : Except PyErr (List String) := do
  let routeId := (lookupField fs "id").getD (.str pathToList)
  let routeName := (lookupField fs "name").getD (.str "N/A")
  let headLines := ["🔍 Metadados da rota: " ++ pyStr routeId,
                    "📝 Nome: " ++ pyStr routeName,
                    ""]
  let descV := (lookupField fs "description").getD .null
  let descLines := if descV.truthy then ["📄 Descrição: " ++ pyStr descV, ""] else []
  let facetSec ← (match listAt fs "facets" with
    | [] => pure ([] : List String)
    | x :: xt => do
        let lls ← exMapM (enhMetaFacetLines pathToList) (x :: xt)
        pure (["🏷️ Facets disponíveis (filtros):", ""] ++ lls.flatten))
  let dataSec := match (lookupField fs "data").getD (.obj []) with
    | .obj (g :: gt) =>
        ["📊 Colunas de dados disponíveis:", ""] ++
        (g :: gt).map (fun kv =>
          match kv.2 with
          | .obj ds =>
              "  📈 " ++ kv.1 ++ ": " ++
                pyStr ((lookupField ds "name").getD ((lookupField ds "alias").getD (.str kv.1))) ++
                " (" ++ pyStr ((lookupField ds "units").getD (.str "N/A")) ++ ")"
          | v => "  📈 " ++ kv.1 ++ ": " ++ pyStr v)
    | _ => []
  let freqSec ← (match listAt fs "frequency" with
    | [] => pure ([] : List String)
    | x :: xt => do
        let lines ← exMapM enhFreqLine (x :: xt)
        pure (["", "📅 Frequências disponíveis:", ""] ++ lines))
  let sp := (lookupField fs "startPeriod").getD .null
  let ep := (lookupField fs "endPeriod").getD .null
  let periodSec :=
    if sp.truthy || ep.truthy then
      ["", "📆 Período de dados disponível:",
       "  📅 Início: " ++ pyStr ((lookupField fs "startPeriod").getD (.str "N/A")),
       "  📅 Fim: " ++ pyStr ((lookupField fs "endPeriod").getD (.str "N/A"))]
    else []
  let exSec :=
    if showExamples then
      let dataPath := if pathToList != "" then pathToList ++ "/data" else "data"
      ["", "💡 Exemplo de uso para obter dados:",
       "   get_eia_v2_route_data_enhanced(",
       "       route_path_with_data_segment='" ++ dataPath ++ "',",
       "       data_elements=['value'],  # ou outras colunas disponíveis",
       "       frequency='monthly',  # ou outra frequência disponível",
       "       start_period='2023-01',",
       "       end_period='2024-01'",
       "   )"]
    else []
  return headLines ++ descLines ++ facetSec ++ dataSec ++ freqSec ++ periodSec ++ exSec

/-- The `else` branch of `list_eia_v2_routes_enhanced` (lines 570-587):
unrecognized format.  Note the final `CallToolResult` at line 589 does NOT
set `is_error`, so this text is returned as a non-error result. -/
def casoUnrecognizedEnh (pathToList : String) (fs : List (String × JVal)) : List String :=
  ["❓ Resposta em formato não reconhecido para: " ++ pathToList,
   "",
   "🔍 Estrutura da resposta:"] ++
  fs.map (fun kv => "  - " ++ kv.1 ++ ": " ++ pyTypeName kv.2) ++
  ["", "📋 Amostra da resposta:",
   if (pyStr (JVal.obj fs)).length > 500 then pyTake (jsonDumps (JVal.obj fs)) 500 ++ "..."
   else jsonDumps (JVal.obj fs)]

/-- The classification dispatch of `list_eia_v2_routes_enhanced` over a
dict `response_obj` (lines 416-591); every branch exits through line 589,
which leaves `is_error` unset (false). -/
def enhancedDispatch (showExamples : Bool)
    (pathToList : String) (fs : List (String × JVal)) : Except PyErr ToolResult :=
  match classifyListing fs with
  | .facetValues =>
      (casoFacetValuesEnh pathToList fs).map (fun ls => ⟨false, String.intercalate "\n" ls⟩)
  | .routeListing =>
      (casoRouteListingEnh pathToList showExamples fs).map (fun ls => ⟨false, String.intercalate "\n" ls⟩)
  | .routeMetadata =>
      (casoRouteMetadataEnh pathToList showExamples fs).map (fun ls => ⟨false, String.intercalate "\n" ls⟩)
  | _ => .ok ⟨false, String.intercalate "\n" (casoUnrecognizedEnh pathToList fs)⟩

/-- `list_eia_v2_routes_enhanced` (src/eia_server.py lines 381-591) after
the transport call. -/
def list_eia_v2_routes_enhanced (segmentPath : Option String) (showExamples : Bool)
    (raw : JVal) : Except PyErr ToolResult := do
  let pathToList := pathToListOf segmentPath
  if !raw.truthy then
    return ⟨true, "❌ Falha na requisição para o caminho: '" ++ pathToList ++ "'"⟩
  let errV ← pyGet raw "error" .null
  if errV.truthy then
    let msgV ← pyGet raw "message" errV
    return ⟨true, "❌ Erro da API: " ++ pyStr msgV⟩
  let responseObj ← pyGet raw "response" raw
  match responseObj with
  | .obj fs => enhancedDispatch showExamples pathToList fs
  | _ =>
      return ⟨true, "❌ Resposta em formato inválido para '" ++ pathToList ++ "'"⟩

/-- One list-valued field contains only dict elements (or is not a list). -/
def listFieldObjs (fs : List (String × JVal)) (k : String) : Bool :=
  match lookupField fs k with
  | some (.arr xs) => xs.all JVal.isObj
  | _ => true

/-- Every list the listing formatters iterate with element `.get` calls
(`facets`, `routes`, `frequency`) holds only dict elements. -/
def cleanListing (fs : List (String × JVal)) : Bool :=
  listFieldObjs fs "facets" && listFieldObjs fs "routes" && listFieldObjs fs "frequency"

/-- Bodies on which both listing tools are exception-free: falsy values,
or dicts whose iterated lists (including under the `response` wrapper)
hold only dict elements. -/
def wfBody (raw : JVal) : Bool :=
  match raw with
  | .obj fs =>
      cleanListing fs &&
      (match lookupField fs "response" with
       | some (.obj gs) => cleanListing gs
       | _ => true)
  | j => !j.truthy

/-- The spec's zero-row fixture: `\x7b"response": \x7b"data": [], "total": 0\x7d\x7d`. -/
def zeroRowsBody : JVal :=
  .obj [("response", .obj [("data", .arr []), ("total", .int 0)])]

/-- A tabular body whose `total` comes back as a string, as the upstream
API has been observed to do. -/
def strTotalBody : JVal :=
  .obj [("response", .obj
    [("data", .arr [.obj [("period", .str "2024"), ("value", .str "1")]]),
     ("total", .str "100")])]

/-- A response object carrying `totalFacets` plus a list `facets` as well
as `id`, `name` and a non-empty `routes` list — the key-overlap scenario
of claim C9. -/
def overlapBody : List (String × JVal) :=
  [("totalFacets", .int 2),
   ("facets", .arr [.obj [("id", .str "v1")]]),
   ("id", .str "route1"),
   ("name", .str "Route One"),
   ("routes", .arr [.obj [("id", .str "child")]])]

/-- Decidable equality on `Except`, for evaluating closed statements. -/
instance {e a : Type} [DecidableEq e] [DecidableEq a] : DecidableEq (Except e a) :=
  fun x y =>
    match x, y with
    | .ok u, .ok v =>
        if h : u = v then .isTrue (by rw [h]) else .isFalse (by simp [h])
    | .error u, .error v =>
        if h : u = v then .isTrue (by rw [h]) else .isFalse (by simp [h])
    | .ok _, .error _ => .isFalse (by simp)
    | .error _, .ok _ => .isFalse (by simp)

-- Reduction helpers for the `Except` monad as used by the embeddings.

theorem except_bind_ok {α β : Type} (a : α) (f : α → Except PyErr β) :
    (Except.ok a >>= f) = f a := rfl

theorem except_bind_error {α β : Type} (e : PyErr) (f : α → Except PyErr β) :
    ((Except.error e : Except PyErr α) >>= f) = .error e := rfl

theorem except_pure_eq {α : Type} (a : α) : (pure a : Except PyErr α) = .ok a := rfl

theorem isOkE_map {α β : Type} (f : α → β) (x : Except PyErr α) :
    isOkE (x.map f) = isOkE x := by cases x <;> rfl

theorem isOkE_bind {α β : Type} (x : Except PyErr α) (f : α → Except PyErr β)
    (hx : isOkE x = true) (hf : ∀ a, x = .ok a → isOkE (f a) = true) :
    isOkE (x >>= f) = true := by
  cases x with
  | error e => simp [isOkE] at hx
  | ok a => rw [except_bind_ok]; exact hf a rfl

theorem isOkE_ite {α : Type} (c : Prop) [Decidable c] (x y : Except PyErr α)
    (hx : isOkE x = true) (hy : isOkE y = true) :
    isOkE (if c then x else y) = true := by
  split <;> assumption

theorem exMapM_ok {α β : Type} (f : α → Except PyErr β) (xs : List α)
    (h : ∀ x ∈ xs, isOkE (f x) = true) : isOkE (exMapM f xs) = true := by
  induction xs with
  | nil => rfl
  | cons x xt ih =>
      have hx := h x (List.mem_cons_self x xt)
      cases hfx : f x with
      | error e => rw [hfx] at hx; simp [isOkE] at hx
      | ok y =>
          have ht := ih (fun z hz => h z (List.mem_cons_of_mem _ hz))
          cases hmt : exMapM f xt with
          | error e => rw [hmt] at ht; simp [isOkE] at ht
          | ok ys => simp [exMapM, hfx, hmt, except_bind_ok, except_pure_eq, isOkE]

theorem pyGet_ok_of_isObj (x : JVal) (h : x.isObj = true) (k : String) (d : JVal) :
    isOkE (pyGet x k d) = true := by
  cases x <;> simp_all [JVal.isObj, pyGet, isOkE]

theorem listAt_all_obj (fs : List (String × JVal)) (k : String)
    (h : listFieldObjs fs k = true) : ∀ x ∈ listAt fs k, x.isObj = true := by
  intro x hx
  unfold listFieldObjs at h
  unfold listAt at hx
  cases hlk : lookupField fs k with
  | none => rw [hlk] at hx; simp at hx
  | some v =>
      rw [hlk] at h hx
      cases v <;> simp_all [List.all_eq_true]

-- Each loop body of the listing formatters succeeds on dict elements.

theorem facetValueLine_ok (fv : JVal) (h : fv.isObj = true) :
    isOkE (facetValueLine fv) = true := by
  cases fv <;> first | rfl | simp_all [JVal.isObj]

theorem subRouteLines_ok (r : JVal) (h : r.isObj = true) :
    isOkE (subRouteLines r) = true := by
  cases r <;> first | rfl | simp_all [JVal.isObj]

theorem metaFacetLines_ok (p : String) (fm : JVal) (h : fm.isObj = true) :
    isOkE (metaFacetLines p fm) = true := by
  cases fm <;> first | rfl | simp_all [JVal.isObj]

theorem freqLine_ok (fr : JVal) (h : fr.isObj = true) :
    isOkE (freqLine fr) = true := by
  cases fr <;> first | rfl | simp_all [JVal.isObj]

theorem enhFacetValueLine_ok (fv : JVal) (h : fv.isObj = true) :
    isOkE (enhFacetValueLine fv) = true := by
  cases fv <;> first | rfl | simp_all [JVal.isObj]

theorem enhSubRouteLines_ok (r : JVal) (h : r.isObj = true) :
    isOkE (enhSubRouteLines r) = true := by
  cases r <;> first | rfl | simp_all [JVal.isObj]

theorem enhMetaFacetLines_ok (p : String) (fm : JVal) (h : fm.isObj = true) :
    isOkE (enhMetaFacetLines p fm) = true := by
  cases fm <;> first | rfl | simp_all [JVal.isObj]

theorem enhFreqLine_ok (fr : JVal) (h : fr.isObj = true) :
    isOkE (enhFreqLine fr) = true := by
  cases fr <;> first | rfl | simp_all [JVal.isObj]

-- Each classification case of the listing formatters succeeds when the
-- lists it iterates hold only dict elements.

theorem casoFacetValues_ok (p : String) (fs : List (String × JVal))
    (h : listFieldObjs fs "facets" = true) :
    isOkE (casoFacetValues p fs) = true := by
  unfold casoFacetValues
  apply isOkE_bind
  · exact exMapM_ok _ _ (fun x hx => facetValueLine_ok x (listAt_all_obj fs "facets" h x hx))
  · intro a _; rfl

theorem casoRouteListing_ok (sp : Option String) (p : String)
    (fs : List (String × JVal)) (h : listFieldObjs fs "routes" = true) :
    isOkE (casoRouteListing sp p fs) = true := by
  unfold casoRouteListing
  apply isOkE_bind
  · exact exMapM_ok _ _ (fun x hx => subRouteLines_ok x (listAt_all_obj fs "routes" h x hx))
  · intro a _; rfl

theorem casoRouteMetadata_ok (p : String) (fs : List (String × JVal))
    (hf : listFieldObjs fs "facets" = true)
    (hq : listFieldObjs fs "frequency" = true) :
    isOkE (casoRouteMetadata p fs) = true := by
  unfold casoRouteMetadata
  apply isOkE_bind
  · cases hfa : listAt fs "facets" with
    | nil => rfl
    | cons x xt =>
        apply isOkE_bind
        · exact exMapM_ok _ _ (fun z hz =>
            metaFacetLines_ok p z (listAt_all_obj fs "facets" hf z (hfa ▸ hz)))
        · intro a _; rfl
  · intro fsec _
    apply isOkE_bind
    · cases hfr : listAt fs "frequency" with
      | nil => rfl
      | cons x xt =>
          apply isOkE_bind
          · exact exMapM_ok _ _ (fun z hz =>
              freqLine_ok z (listAt_all_obj fs "frequency" hq z (hfr ▸ hz)))
          · intro a _; rfl
    · intro a _; rfl

theorem casoFacetValuesEnh_ok (p : String) (fs : List (String × JVal))
    (h : listFieldObjs fs "facets" = true) :
    isOkE (casoFacetValuesEnh p fs) = true := by
  unfold casoFacetValuesEnh
  apply isOkE_bind
  · exact exMapM_ok _ _ (fun x hx =>
      enhFacetValueLine_ok x (listAt_all_obj fs "facets" h x (List.take_subset _ _ hx)))
  · intro a _; rfl

theorem casoRouteListingEnh_ok (p : String) (se : Bool)
    (fs : List (String × JVal)) (h : listFieldObjs fs "routes" = true) :
    isOkE (casoRouteListingEnh p se fs) = true := by
  unfold casoRouteListingEnh
  apply isOkE_bind
  · exact exMapM_ok _ _ (fun x hx => enhSubRouteLines_ok x (listAt_all_obj fs "routes" h x hx))
  · intro a _
    apply isOkE_bind
    · cases hfa : listAt fs "routes" with
      | nil => rfl
      | cons first rest =>
          cases se with
          | false => rfl
          | true =>
              have hfo : first.isObj = true :=
                listAt_all_obj fs "routes" h first (by rw [hfa]; exact List.mem_cons_self _ _)
              cases first <;> first | rfl | simp_all [JVal.isObj]
    · intro b _; rfl

theorem casoRouteMetadataEnh_ok (p : String) (se : Bool)
    (fs : List (String × JVal))
    (hf : listFieldObjs fs "facets" = true)
    (hq : listFieldObjs fs "frequency" = true) :
    isOkE (casoRouteMetadataEnh p se fs) = true := by
  unfold casoRouteMetadataEnh
  apply isOkE_bind
  · cases hfa : listAt fs "facets" with
    | nil => rfl
    | cons x xt =>
        apply isOkE_bind
        · exact exMapM_ok _ _ (fun z hz =>
            enhMetaFacetLines_ok p z (listAt_all_obj fs "facets" hf z (hfa ▸ hz)))
        · intro a _; rfl
  · intro fsec _
    apply isOkE_bind
    · cases hfr : listAt fs "frequency" with
      | nil => rfl
      | cons x xt =>
          apply isOkE_bind
          · exact exMapM_ok _ _ (fun z hz =>
              enhFreqLine_ok z (listAt_all_obj fs "frequency" hq z (hfr ▸ hz)))
          · intro a _; rfl
    · intro a _; rfl

theorem routesDispatch_ok (sp : Option String) (p : String) (raw : JVal)
    (fs : List (String × JVal)) (h : cleanListing fs = true) :
    isOkE (routesDispatch sp p raw fs) = true := by
  have h3 := h
  unfold cleanListing at h3
  rw [Bool.and_eq_true, Bool.and_eq_true] at h3
  unfold routesDispatch
  cases classifyListing fs with
  | facetValues => rw [isOkE_map]; exact casoFacetValues_ok p fs h3.1.1
  | routeListing => rw [isOkE_map]; exact casoRouteListing_ok sp p fs h3.1.2
  | routeMetadata => rw [isOkE_map]; exact casoRouteMetadata_ok p fs h3.1.1 h3.2
  | tabularData => rfl
  | unrecognized => rfl

theorem enhancedDispatch_ok (se : Bool) (p : String)
    (fs : List (String × JVal)) (h : cleanListing fs = true) :
    isOkE (enhancedDispatch se p fs) = true := by
  have h3 := h
  unfold cleanListing at h3
  rw [Bool.and_eq_true, Bool.and_eq_true] at h3
  unfold enhancedDispatch
  cases classifyListing fs with
  | facetValues => rw [isOkE_map]; exact casoFacetValuesEnh_ok p fs h3.1.1
  | routeListing => rw [isOkE_map]; exact casoRouteListingEnh_ok p se fs h3.1.2
  | routeMetadata => rw [isOkE_map]; exact casoRouteMetadataEnh_ok p se fs h3.1.1 h3.2
  | tabularData => rfl
  | unrecognized => rfl

-- Suffix lemmas for the `/data` normalization.

theorem isPrefixOf_append_self (l r : List Char) : l.isPrefixOf (l ++ r) = true := by
  induction l with
  | nil => simp [List.isPrefixOf]
  | cons a as ih => simp [List.isPrefixOf, List.cons_append, ih]

theorem isSuffixOf_append_self (l r : List Char) : l.isSuffixOf (r ++ l) = true := by
  simp [List.isSuffixOf, List.reverse_append, isPrefixOf_append_self]

theorem pyEndsWith_append (x y : String) : pyEndsWith (x ++ y) y = true := by
  simp [pyEndsWith, String.data_append, isSuffixOf_append_self]

/-- C1 counterexample: for the singleton facet mapping `stateid ↦ "CO"`,
`build_facets_params` emits the key `facets[stateid]` — not
`facets[stateid][]` — and leaves the scalar value as a bare scalar
instead of wrapping it into a sequence. -/
theorem facets_params_claim_cex :
    build_facets_params [("stateid", FacetV.str "CO")] = [("facets[stateid]", PVal.str "CO")]
    ∧ "facets[stateid]" ≠ "facets[stateid][]"
    ∧ PVal.str "CO" ≠ PVal.strList ["CO"] := by
  refine ⟨rfl, by decide, by decide⟩

/-- C1 (amended): for every non-empty facets mapping, each entry becomes a
parameter whose key is exactly `facets[<key>]` (no `[]` suffix) and whose
value is passed through unchanged — scalars stay bare scalars and lists
stay lists. -/
theorem facets_params_passthrough (facets : List (String × FacetV)) (h : facets ≠ []) :
    build_facets_params facets =
      facets.map (fun kv => ("facets[" ++ kv.1 ++ "]", pvalOfFacet kv.2)) := by
  clear h
  induction facets with
  | nil => rfl
  | cons kv rest ih =>
      cases kv with
      | mk k v => cases v <;> simp_all [build_facets_params, pvalOfFacet]

/-- Witness for `facets_params_passthrough` at the facet mapping
`stateid ↦ "CO"`. -/
theorem facets_params_passthrough_witness :
    ([("stateid", FacetV.str "CO")] : List (String × FacetV)) ≠ []
    ∧ build_facets_params [("stateid", FacetV.str "CO")] =
        [("stateid", FacetV.str "CO")].map (fun kv => ("facets[" ++ kv.1 ++ "]", pvalOfFacet kv.2)) :=
  ⟨by decide, facets_params_passthrough [("stateid", FacetV.str "CO")] (by decide)⟩

/-- C4 counterexample: a data route that does not end in `/data` is
rejected with an error result — the suffix is not appended. -/
theorem missing_data_suffix_rejected_cex :
    routeDataPathStep "petroleum/pri/spt" =
      .error "❌ O parâmetro 'route_path_with_data_segment' DEVE terminar em '/data' ou '/data/'. Caminho fornecido: petroleum/pri/spt" := by
  rfl

/-- C4 (amended): a route that does not already end in `/data` or `/data/`
is rejected with an error result rather than having the suffix appended;
for every accepted route, the normalized path sent upstream ends in
`/data`. -/
theorem data_suffix_validate_append (p : String) :
    (routeDataValidate p = false →
      routeDataPathStep p =
        .error ("❌ O parâmetro 'route_path_with_data_segment' DEVE terminar em '/data' ou '/data/'. Caminho fornecido: " ++ p))
    ∧ (routeDataValidate p = true →
      ∃ q, routeDataPathStep p = .ok q ∧ pyEndsWith q "/data" = true) := by
  constructor
  · intro h
    rw [routeDataValidate, Bool.or_eq_false_iff] at h
    simp [routeDataPathStep, h.1, h.2]
  · intro h
    refine ⟨normalizeDataPath p, ?_, ?_⟩
    · rw [routeDataValidate, Bool.or_eq_true] at h
      rcases h with h | h <;> simp [routeDataPathStep, h]
    · exact pyEndsWith_append _ _

/-- Witness for `data_suffix_validate_append` at an accepted route. -/
theorem data_suffix_validate_append_witness :
    routeDataValidate "electricity/retail-sales/data" = true
    ∧ ∃ q, routeDataPathStep "electricity/retail-sales/data" = .ok q
        ∧ pyEndsWith q "/data" = true :=
  ⟨by decide, (data_suffix_validate_append "electricity/retail-sales/data").2 (by decide)⟩

/-- C5: evaluating the normalization at the exact path that
`find_wti_oil_data` passes (`petroleum/pri/spt/data`, already ending in
`/data`): `rstrip('/data')` strips the trailing run of characters drawn
from the set `/,d,a,t`, eating the final `t` of `spt`, so the path sent
upstream is `petroleum/pri/sp/data` — not the given path. -/
theorem rstrip_mangles_spt_route :
    routeDataValidate wtiDataPath = true
    ∧ normalizeDataPath wtiDataPath = "petroleum/pri/sp/data"
    ∧ normalizeDataPath wtiDataPath ≠ wtiDataPath := by
  refine ⟨by decide, by decide, by decide⟩

/-- C6 counterexample: a successful response whose empty data array sits
at the body root, without the `response` wrapper, is reported with the
error flag false by the route-data operation (which falls back to the
body itself at line 308) but with the error flag TRUE by the series-id
operation, whose wrapper default is `{}` (line 797), so its zero-row
check at line 800 misses and the error branch at lines 806-816 runs. -/
theorem series_id_unwrapped_zero_rows_cex :
    (routeDataPost "electricity/retail-sales/data" 0 5000 false
        (JVal.obj [("data", JVal.arr [])])).map ToolResult.isErrorFlag = .ok false
    ∧ (seriesIdPost "ELEC.SALES"
        (JVal.obj [("data", JVal.arr [])])).map ToolResult.isErrorFlag = .ok true := by
  refine ⟨by decide, by decide⟩

/-- C6 (amended): for every successful upstream response that carries the
`response` wrapper and whose data array under it is empty — whatever the
remaining fields (`total`, warnings, ...) and tool arguments — both the
route-data operation and the series-id operation report with the error
flag false, the series-id one with its fixed informational message;
zero rows is not an error on this family.  (Without the wrapper the
series-id operation reports an error instead; see the counterexample.) -/
theorem zero_rows_wrapped_not_error (seriesId path : String)
    (off lengthArg : Int) (debugMode : Bool)
    (fs gs : List (String × JVal))
    (herr : ((lookupField fs "error").getD .null).truthy = false)
    (hresp : lookupField fs "response" = some (.obj gs))
    (hdata : lookupField gs "data" = some (.arr [])) :
    (routeDataPost path off lengthArg debugMode (.obj fs)).map ToolResult.isErrorFlag = .ok false
    ∧ seriesIdPost seriesId (.obj fs) =
        .ok ⟨false, "Nenhum dado encontrado para o Series ID " ++ seriesId ++ ". A API retornou uma lista vazia."⟩ := by
  have hne : fs.isEmpty = false := by
    cases fs with
    | nil => simp [lookupField] at hresp
    | cons f ft => rfl
  have hTr : JVal.truthy (JVal.obj fs) = true := by simp [JVal.truthy, hne]
  have hArrF : JVal.truthy (JVal.arr []) = false := rfl
  have hArrT : JVal.isArr (JVal.arr []) = true := rfl
  constructor
  · unfold routeDataPost
    simp [hTr, pyGet, pyGetOpt, herr, hresp, hdata, hArrF, except_bind_ok, Except.map]
  · unfold seriesIdPost
    simp [hTr, pyGet, pyGetOpt, herr, hresp, hdata, hArrF, hArrT, except_bind_ok,
      except_pure_eq, Except.map]

/-- Witness for `zero_rows_wrapped_not_error` at the spec's zero-row
fixture `response.data = [], total = 0`. -/
theorem zero_rows_wrapped_not_error_witness :
    (((lookupField [("response", JVal.obj [("data", JVal.arr []), ("total", JVal.int 0)])] "error").getD .null).truthy = false
      ∧ lookupField [("response", JVal.obj [("data", JVal.arr []), ("total", JVal.int 0)])] "response" =
          some (JVal.obj [("data", JVal.arr []), ("total", JVal.int 0)])
      ∧ lookupField [("data", JVal.arr []), ("total", JVal.int 0)] "data" = some (JVal.arr []))
    ∧ (routeDataPost "electricity/retail-sales/data" 0 5000 false zeroRowsBody).map ToolResult.isErrorFlag = .ok false
    ∧ seriesIdPost "ELEC.SALES" zeroRowsBody =
        .ok ⟨false, "Nenhum dado encontrado para o Series ID " ++ "ELEC.SALES" ++ ". A API retornou uma lista vazia."⟩ :=
  have h := zero_rows_wrapped_not_error "ELEC.SALES" "electricity/retail-sales/data" 0 5000 false
    [("response", JVal.obj [("data", JVal.arr []), ("total", JVal.int 0)])]
    [("data", JVal.arr []), ("total", JVal.int 0)]
    (by rfl) (by rfl) (by rfl)
  ⟨⟨by rfl, by rfl, by rfl⟩, h.1, h.2⟩

/-- C7: whenever the attempted HTTP interaction raises — a non-2xx status,
a network-level `RequestError`, a JSON parse failure of a 2xx body, or any
other exception — `make_eia_api_request` still returns a value, and that
value is an error-tagged dict; nothing escapes the transport boundary. -/
theorem transport_failures_tagged (key : String) (o : HttpOutcome)
    (h : isFailureOutcome o = true) :
    hasErrorKey (make_eia_api_request (some key) o) = true := by
  cases o with
  | success parse =>
      cases parse with
      | ok body => simp [isFailureOutcome] at h
      | error m => rfl
  | statusError c t p =>
      cases p with
      | error m => rfl
      | ok j => cases j <;> rfl
  | requestError m => rfl
  | otherException m => rfl

/-- Witness for `transport_failures_tagged` at a network failure. -/
theorem transport_failures_tagged_witness :
    isFailureOutcome (HttpOutcome.requestError "boom") = true
    ∧ hasErrorKey (make_eia_api_request (some "k") (HttpOutcome.requestError "boom")) = true :=
  ⟨rfl, transport_failures_tagged "k" (HttpOutcome.requestError "boom") rfl⟩

/-- C8: with no API key configured the transport returns the
`API_KEY_MISSING` dict for every network outcome — in particular the
result does not depend on any network interaction — and each
upstream-calling operation degrades to an error-flagged per-call result
instead of crashing. -/
theorem missing_credential_no_network (o : HttpOutcome) :
    make_eia_api_request none o = missingKeyResult
    ∧ (routeDataPost "electricity/retail-sales/data" 0 5000 false
        (make_eia_api_request none o)).map ToolResult.isErrorFlag = .ok true
    ∧ (seriesIdPost "ELEC.SALES" (make_eia_api_request none o)).map ToolResult.isErrorFlag = .ok true
    ∧ (list_eia_v2_routes none (make_eia_api_request none o)).map ToolResult.isErrorFlag = .ok true
    ∧ (list_eia_v2_routes_enhanced none true
        (make_eia_api_request none o)).map ToolResult.isErrorFlag = .ok true := by
  have h : make_eia_api_request none o = missingKeyResult := rfl
  refine ⟨h, ?_, ?_, ?_, ?_⟩ <;> rw [h] <;> decide

/-- C9: the listing classification is an ordered priority chain — the
facet-values test wins over the routes test, which wins over the id/name
test, with `Unrecognized` as the final fallback. -/
theorem classification_priority_chain (fs : List (String × JVal)) :
    (facetCond fs = true → classifyListing fs = .facetValues)
    ∧ (facetCond fs = false → routesCond fs = true → classifyListing fs = .routeListing)
    ∧ (facetCond fs = false → routesCond fs = false → metaCond fs = true →
        classifyListing fs = .routeMetadata)
    ∧ (facetCond fs = false → routesCond fs = false → metaCond fs = false →
        classifyListing fs = .unrecognized) := by
  refine ⟨fun h1 => ?_, fun h1 h2 => ?_, fun h1 h2 h3 => ?_, fun h1 h2 h3 => ?_⟩ <;>
    simp [classifyListing, *]

/-- Witness for `classification_priority_chain`: a body carrying
`totalFacets` with a list `facets` together with `id`, `name` and a
non-empty `routes` list classifies as facet values. -/
theorem classification_priority_chain_witness :
    facetCond overlapBody = true ∧ classifyListing overlapBody = .facetValues :=
  ⟨by decide, (classification_priority_chain overlapBody).1 (by decide)⟩

/-- C2 counterexample: the classifier-and-formatter is not total — the
enhanced listing tool raises `AttributeError` on a non-empty array body
(line 401 calls `.get` on it), and `list_eia_v2_routes` raises
`AttributeError` on a facet-values body whose `facets` list contains a
non-dict element (line 883). -/
theorem listing_formatter_raises_cex :
    list_eia_v2_routes_enhanced none true (JVal.arr [JVal.int 1]) =
      .error PyErr.attributeError
    ∧ list_eia_v2_routes none
        (JVal.obj [("totalFacets", JVal.int 1), ("facets", JVal.arr [JVal.int 5])]) =
      .error PyErr.attributeError := by
  refine ⟨by decide, by decide⟩

/-- C2 (amended): both listing tools return exactly one classified tool
result and raise no exception for every body that is falsy or is an
object whose iterated list fields (`facets`, `routes`, `frequency`, at
top level and under the `response` wrapper) contain only objects; other
bodies can raise (see the counterexample). -/
theorem listing_total_on_wf_bodies (sp : Option String) (se : Bool) (raw : JVal)
    (h : wfBody raw = true) :
    isOkE (list_eia_v2_routes sp raw) = true ∧
    isOkE (list_eia_v2_routes_enhanced sp se raw) = true := by
  cases raw with
  | null => exact ⟨rfl, rfl⟩
  | bool b =>
      cases b with
      | false => exact ⟨rfl, rfl⟩
      | true => simp [wfBody, JVal.truthy] at h
  | int n =>
      have hn : n = 0 := by simpa [wfBody, JVal.truthy] using h
      subst hn; exact ⟨rfl, rfl⟩
  | str s =>
      have hs : s = "" := by simpa [wfBody, JVal.truthy] using h
      subst hs; exact ⟨rfl, rfl⟩
  | arr xs =>
      have hx : xs = [] := by simpa [wfBody, JVal.truthy, List.isEmpty_iff] using h
      subst hx; exact ⟨rfl, rfl⟩
  | obj fs =>
      unfold wfBody at h
      rw [Bool.and_eq_true] at h
      obtain ⟨hcl, hw⟩ := h
      cases fs with
      | nil => exact ⟨rfl, rfl⟩
      | cons f ft =>
          constructor
          · -- list_eia_v2_routes
            unfold list_eia_v2_routes
            apply isOkE_ite
            · rfl
            apply isOkE_bind
            · rfl
            intro _ _
            apply isOkE_bind
            · rfl
            intro hasReq _
            apply isOkE_ite
            · -- hasReq branch: membership test then the merged tail
              apply isOkE_bind
              · rfl
              intro y _
              apply isOkE_ite
              · apply isOkE_bind
                · rfl
                intro v hv
                cases v with
                | obj gs =>
                    apply routesDispatch_ok
                    have hv' : (lookupField (f :: ft) "response").getD .null = .obj gs := by
                      have := hv
                      simp only [pyGetOpt, pyGet] at this
                      exact (Except.ok.injEq _ _).mp this
                    cases hlk : lookupField (f :: ft) "response" with
                    | none => rw [hlk] at hv'; simp at hv'
                    | some w =>
                        rw [hlk] at hv'
                        simp only [Option.getD_some] at hv'
                        rw [hlk, hv'] at hw
                        exact hw
                | null => rfl
                | bool b => rfl
                | int n => rfl
                | str s => rfl
                | arr xs => rfl
              · apply isOkE_bind
                · rfl
                intro v hv
                have hv' : JVal.obj (f :: ft) = v := (Except.ok.injEq _ _).mp hv
                cases v with
                | obj gs =>
                    apply routesDispatch_ok
                    have : gs = f :: ft := by
                      injection hv'.symm with h1
                    rw [this]; exact hcl
                | null => rfl
                | bool b => rfl
                | int n => rfl
                | str s => rfl
                | arr xs => rfl
            · -- not hasReq: y ← pure false, then same tail
              apply isOkE_bind
              · rfl
              intro y _
              apply isOkE_ite
              · apply isOkE_bind
                · rfl
                intro v hv
                cases v with
                | obj gs =>
                    apply routesDispatch_ok
                    have hv' : (lookupField (f :: ft) "response").getD .null = .obj gs := by
                      have := hv
                      simp only [pyGetOpt, pyGet] at this
                      exact (Except.ok.injEq _ _).mp this
                    cases hlk : lookupField (f :: ft) "response" with
                    | none => rw [hlk] at hv'; simp at hv'
                    | some w =>
                        rw [hlk] at hv'
                        simp only [Option.getD_some] at hv'
                        rw [hlk, hv'] at hw
                        exact hw
                | null => rfl
                | bool b => rfl
                | int n => rfl
                | str s => rfl
                | arr xs => rfl
              · apply isOkE_bind
                · rfl
                intro v hv
                have hv' : JVal.obj (f :: ft) = v := (Except.ok.injEq _ _).mp hv
                cases v with
                | obj gs =>
                    apply routesDispatch_ok
                    have : gs = f :: ft := by injection hv'.symm with h1
                    rw [this]; exact hcl
                | null => rfl
                | bool b => rfl
                | int n => rfl
                | str s => rfl
                | arr xs => rfl
          · -- list_eia_v2_routes_enhanced
            unfold list_eia_v2_routes_enhanced
            apply isOkE_ite
            · rfl
            apply isOkE_bind
            · rfl
            intro _ _
            apply isOkE_bind
            · rfl
            intro errV _
            apply isOkE_ite
            · apply isOkE_bind
              · rfl
              intro _ _
              rfl
            · apply isOkE_bind
              · rfl
              intro _ _
              apply isOkE_bind
              · rfl
              intro v hv
              have hv' : (lookupField (f :: ft) "response").getD (JVal.obj (f :: ft)) = v := by
                have := hv
                simp only [pyGet] at this
                exact (Except.ok.injEq _ _).mp this
              cases v with
              | obj gs =>
                  apply enhancedDispatch_ok
                  cases hlk : lookupField (f :: ft) "response" with
                  | none =>
                      rw [hlk] at hv'
                      simp only [Option.getD_none] at hv'
                      have : gs = f :: ft := by injection hv'.symm with h1
                      rw [this]; exact hcl
                  | some w =>
                      rw [hlk] at hv'
                      simp only [Option.getD_some] at hv'
                      rw [hlk, hv'] at hw
                      exact hw
              | null => rfl
              | bool b => rfl
              | int n => rfl
              | str s => rfl
              | arr xs => rfl

/-- Witness for `listing_total_on_wf_bodies` at a well-formed
route-listing body. -/
theorem listing_total_on_wf_bodies_witness :
    wfBody (JVal.obj [("routes", JVal.arr [JVal.obj [("id", JVal.str "electricity")]])]) = true
    ∧ isOkE (list_eia_v2_routes none
        (JVal.obj [("routes", JVal.arr [JVal.obj [("id", JVal.str "electricity")]])])) = true
    ∧ isOkE (list_eia_v2_routes_enhanced none true
        (JVal.obj [("routes", JVal.arr [JVal.obj [("id", JVal.str "electricity")]])])) = true :=
  have h := listing_total_on_wf_bodies none true
    (JVal.obj [("routes", JVal.arr [JVal.obj [("id", JVal.str "electricity")]])]) (by decide)
  ⟨by decide, h.1, h.2⟩

/-- C3 counterexample: for a body matching none of the known shapes, the
enhanced listing tool returns the unrecognized-format report WITHOUT the
error flag (its final `CallToolResult` at line 589 leaves `is_error`
unset), while the body indeed classifies as unrecognized. -/
theorem unrecognized_enhanced_not_error_cex :
    classifyListing [("foo", JVal.int 1)] = RVariant.unrecognized
    ∧ (list_eia_v2_routes_enhanced (some "x") true
        (JVal.obj [("foo", JVal.int 1)])).map ToolResult.isErrorFlag = .ok false := by
  refine ⟨by decide, by decide⟩

/-- C3 (amended): an unrecognized body is surfaced with the error flag set
by `list_eia_v2_routes` (line 980) but as a NON-error text result by
`list_eia_v2_routes_enhanced` (line 589). -/
theorem unrecognized_error_flag_split (sp : Option String) (fs : List (String × JVal))
    (hne : fs.isEmpty = false)
    (hreq : hasField fs "request" = false)
    (hresp : (lookupField fs "response").isNone = true)
    (herr : ((lookupField fs "error").getD .null).truthy = false)
    (hcls : classifyListing fs = .unrecognized) :
    (list_eia_v2_routes sp (.obj fs)).map ToolResult.isErrorFlag = .ok true
    ∧ (list_eia_v2_routes_enhanced sp true (.obj fs)).map ToolResult.isErrorFlag = .ok false := by
  have hTr : JVal.truthy (JVal.obj fs) = true := by simp [JVal.truthy, hne]
  rw [Option.isNone_iff_eq_none] at hresp
  constructor
  · unfold list_eia_v2_routes
    simp [hTr, pyContains, hreq, except_bind_ok, routesDispatch, hcls,
      casoUnrecognized, Except.map]
  · unfold list_eia_v2_routes_enhanced
    simp [hTr, pyGet, herr, hresp, except_bind_ok, enhancedDispatch, hcls,
      casoUnrecognizedEnh, Except.map]

/-- Witness for `unrecognized_error_flag_split` at the unrecognized body
of the counterexample. -/
theorem unrecognized_error_flag_split_witness :
    (([("foo", JVal.int 1)] : List (String × JVal)).isEmpty = false
      ∧ hasField [("foo", JVal.int 1)] "request" = false
      ∧ (lookupField [("foo", JVal.int 1)] "response").isNone = true
      ∧ ((lookupField [("foo", JVal.int 1)] "error").getD .null).truthy = false
      ∧ classifyListing [("foo", JVal.int 1)] = .unrecognized)
    ∧ (list_eia_v2_routes none (.obj [("foo", JVal.int 1)])).map ToolResult.isErrorFlag = .ok true
    ∧ (list_eia_v2_routes_enhanced none true
        (.obj [("foo", JVal.int 1)])).map ToolResult.isErrorFlag = .ok false :=
  have h := unrecognized_error_flag_split none [("foo", JVal.int 1)]
    (by decide) (by decide) (by decide) (by decide) (by decide)
  ⟨⟨by decide, by decide, by decide, by decide, by decide⟩, h.1, h.2⟩

/-- C10 counterexample: a string-valued `total` makes the tabular header
rendering raise (`ValueError` from applying the `","` format spec to a
string) — the tool call fails instead of degrading. -/
theorem total_string_raises_cex :
    routeDataPost "petroleum/pri/spt/data" 0 5000 false strTotalBody =
      .error PyErr.valueError := by
  decide

/-- C10 (amended): the total record count is taken from the `total` field
with `len(rows)` as the eagerly-evaluated fallback, but it is NOT coerced
to an integer: with an integer `total` the header (and remaining-records
count) renders successfully, while a string-valued `total` raises
`ValueError`; an absent `total` behaves exactly like `total = len(rows)`. -/
theorem total_fallback_no_coercion (path : String) (off lengthArg : Int)
    (n : Int) (rows : List JVal) :
    isOkE (tabularHeader path off lengthArg (.obj [("total", .int n)]) (.arr rows)) = true
    ∧ (∀ s : String,
        tabularHeader path off lengthArg (.obj [("total", .str s)]) (.arr rows) =
          .error PyErr.valueError)
    ∧ tabularHeader path off lengthArg (.obj []) (.arr rows) =
        tabularHeader path off lengthArg (.obj [("total", .int rows.length)]) (.arr rows) := by
  refine ⟨?_, fun s => ?_, ?_⟩
  · unfold tabularHeader
    simp [pyLen, pyGet, lookupField, JVal.asPyInt, except_bind_ok]
    split <;> rfl
  · unfold tabularHeader
    simp [pyLen, pyGet, lookupField, JVal.asPyInt, except_bind_ok]
  · unfold tabularHeader
    simp [pyLen, pyGet, lookupField, except_bind_ok]
